import Mathlib

/-!
Shallow embedding of the BotBarberiaV1 WhatsApp chatbot (Python) in Lean 4,
with theorems checking the natural-language specification against the code.

Python strings are modelled by `String` (or `List Char` where proofs need
structural recursion), Python `None`-able values by `Option`, Python dicts
(insertion-ordered) by association lists, and external I/O (the WhatsApp
send API, the Gemini API, clocks, uuids) by explicit oracle parameters.
Python truthiness of strings is modelled by `pyStrTruthy`.
-/

set_option maxHeartbeats 1000000
set_option maxRecDepth 8000

namespace BotBarberia

/-- Python truthiness of an optional string: `None` and `""` are falsy. -/
def pyStrTruthy : Option String → Bool
  | none => false
  | some s => s ≠ ""

/-- Python `str.strip()` (no argument): drop leading and trailing
whitespace, modelled over the ASCII whitespace characters of
`Char.isWhitespace`. -/
def pyStrip (s : String) : String :=
  String.mk (((s.data.dropWhile Char.isWhitespace).reverse.dropWhile
    Char.isWhitespace).reverse)

/-- Python `sub in s` substring test, on the underlying character lists:
`sub` is a prefix of some suffix of `s`. -/
def contieneSubAux (pat : List Char) : List Char → Bool
  | [] => pat.isEmpty
  | c :: cs => pat.isPrefixOf (c :: cs) || contieneSubAux pat cs

/-- Python `sub in s` substring test. -/
def contieneSub (sub s : String) : Bool :=
  contieneSubAux sub.data s.data

namespace PolicyEngine

/-- From `Util/policy_engine.py`, `evaluar_politica_demora`: threshold table on
an optional lateness-minutes integer. -/
def evaluar_politica_demora : Option Int → String
  | none => "demora_media"
  | some minutos =>
      if minutos ≤ 5 then "demora_leve"
      else if minutos ≤ 10 then "demora_media"
      else if minutos ≤ 15 then "demora_grave"
      else "turno_perdido"

def mensaje_demora_leve : String :=
  "Bro, no pasa nada. Ya le avisamos al barbero con el cual agendaste tu turno."

def mensaje_demora_media : String :=
  "Bro, no pasa nada. Ya le avisamos al barbero con el cual agendaste tu turno."

def mensaje_demora_grave : String :=
  "Bro, cuando el atraso es así es un poco complicado porque tenemos otros turnos agendados detrás. Si podés llegar lo antes posible, genial. Si no, mejor cancelá ese turno y agendate uno nuevo en el primer horario disponible."

def mensaje_turno_perdido : String :=
  "Bro, cuando el atraso es tan largo es muy difícil poder atenderte bien porque tenemos otros turnos agendados detrás. En este caso, lo mejor es que canceles ese turno y te agendes uno nuevo en el primer horario disponible, así podemos darte el tiempo que necesitás y no atrasamos al resto."

/-- The `mensajes_demora` dict of `obtener_mensaje_segun_estado`. -/
def mensajes_demora : List (String × String) :=
  [("demora_leve", mensaje_demora_leve),
   ("demora_media", mensaje_demora_media),
   ("demora_grave", mensaje_demora_grave),
   ("turno_perdido", mensaje_turno_perdido)]

/-- The link-appending step of `obtener_mensaje_segun_estado`: append the
agenda link when it is truthy and not already a substring of the message. -/
def agregarLink (mensaje link_agenda : String) : String :=
  if link_agenda ≠ "" ∧ ¬ contieneSub link_agenda mensaje then
    mensaje ++ "\n\n" ++ link_agenda
  else mensaje

/-- From `Util/policy_engine.py`, `obtener_mensaje_segun_estado`.  The Python
`contexto` dict is modelled by its only consulted field `link_agenda`
(`contexto.get("link_agenda", "")`, absent key = `""`). -/
def obtener_mensaje_segun_estado (estado : String) (link_agenda : String) : Option String :=
  match mensajes_demora.lookup estado with
  | some mensaje =>
      if estado = "demora_grave" ∨ estado = "turno_perdido" then
        some (agregarLink mensaje link_agenda)
      else
        some mensaje
  | none => none

end PolicyEngine

namespace TokenOptimizer

def MAX_TOKENS_INPUT : Nat := 4000

/-- From `Util/token_optimizer.py`, `count_tokens` in local mode
(`use_api = False`, the default): `0` for empty text, else
`max(1, len(text) // 4)`. -/
def count_tokens (text : String) : Nat :=
  if text = "" then 0
  else max 1 (text.length / 4)

/-- The line-truncation step of `validate_and_compress` for an over-limit
message.  Python float arithmetic `int(len(line) * compression_factor * 0.7)`
is modelled by exact integer arithmetic
`(len(line) * target_tokens * 7) / (tokens * 10)` (floor). -/
def comprimirLinea (targetTokens tokens : Nat) (line : String) : String :=
  if line.length > 200 then
    String.mk (line.data.take (line.length * targetTokens * 7 / (tokens * 10))) ++ "..."
  else line

/-- From `Util/token_optimizer.py`, `validate_and_compress`. -/
def validate_and_compress (message : String) (max_input_tokens : Nat) : String × Nat :=
  let tokens := count_tokens message
  if tokens ≤ max_input_tokens then (message, tokens)
  else
    let lines := message.splitOn "\n"
    let target_tokens := max_input_tokens - 100
    let compressed_lines := lines.map (comprimirLinea target_tokens tokens)
    let compressed_message := String.intercalate "\n" compressed_lines
    (compressed_message, count_tokens compressed_message)

end TokenOptimizer

namespace WhatsappApi

/-- A character removed by the `.replace` chain of
`normalizar_numero_telefono`: space, hyphen, open or close parenthesis. -/
def charRemovido (c : Char) : Bool :=
  c == ' ' || c == '-' || c == '(' || c == ')'

/-- Python `s.replace(c, "")` for a single character: drop every occurrence. -/
def pyReplaceChar (c : Char) (s : List Char) : List Char :=
  s.filter (fun x => !(x == c))

/-- The four successive `.replace(_, "")` calls of `normalizar_numero_telefono`. -/
def limpiar (s : List Char) : List Char :=
  pyReplaceChar ')' (pyReplaceChar '(' (pyReplaceChar '-' (pyReplaceChar ' ' s)))

/-- Python `numero.startswith("+")` on the character list. -/
def startsWithPlus : List Char → Bool
  | [] => false
  | c :: _ => c == '+'

/-- The body of `normalizar_numero_telefono` on the character list. -/
def normList (s : List Char) : List Char :=
  let t := limpiar s
  if startsWithPlus t then t else '+' :: t

/-- From `whatsapp_api.py`, `normalizar_numero_telefono`: strip spaces,
hyphens and parentheses, then prepend `"+"` unless already present. -/
def normalizar_numero_telefono (numero : String) : String :=
  String.mk (normList numero.data)

theorem limpiar_eq_filter (s : List Char) :
    limpiar s = s.filter (fun c => ! charRemovido c) := by
  simp only [limpiar, pyReplaceChar, List.filter_filter]
  congr 1
  funext c
  simp only [charRemovido]
  cases h1 : c == ' ' <;> cases h2 : c == '-' <;> cases h3 : c == '(' <;>
    cases h4 : c == ')' <;> rfl

theorem limpiar_no_removido (s : List Char) :
    (limpiar s).all (fun c => ! charRemovido c) := by
  simp only [limpiar_eq_filter, List.all_eq_true]
  intro c hc
  exact (List.mem_filter.mp hc).2

theorem limpiar_of_clean (s : List Char)
    (h : s.all (fun c => ! charRemovido c)) : limpiar s = s := by
  rw [limpiar_eq_filter]
  exact List.filter_eq_self.mpr (List.all_eq_true.mp h)

theorem normList_head (s : List Char) : ∃ t, normList s = '+' :: t := by
  unfold normList
  cases h : limpiar s with
  | nil => exact ⟨[], by simp [startsWithPlus]⟩
  | cons c t =>
    by_cases hc : c = '+'
    · subst hc
      exact ⟨t, by simp [startsWithPlus]⟩
    · refine ⟨c :: t, ?_⟩
      have : startsWithPlus (c :: t) = false := by
        simp [startsWithPlus, hc]
      simp [this]

theorem normList_clean (s : List Char) :
    (normList s).all (fun c => ! charRemovido c) := by
  show ((if startsWithPlus (limpiar s) then limpiar s else '+' :: limpiar s).all
    (fun c => ! charRemovido c)) = true
  split
  · exact limpiar_no_removido s
  · simp only [List.all_cons, Bool.and_eq_true]
    exact ⟨by decide, limpiar_no_removido s⟩

theorem normList_of_plus_clean (t : List Char)
    (h : ('+' :: t).all (fun c => ! charRemovido c)) :
    normList ('+' :: t) = '+' :: t := by
  show (if startsWithPlus (limpiar ('+' :: t)) then limpiar ('+' :: t)
        else '+' :: limpiar ('+' :: t)) = '+' :: t
  rw [limpiar_of_clean _ h]
  simp [startsWithPlus]

theorem normList_idem (s : List Char) : normList (normList s) = normList s := by
  obtain ⟨t, ht⟩ := normList_head s
  have hc := normList_clean s
  calc normList (normList s) = normList ('+' :: t) := by rw [ht]
    _ = '+' :: t := normList_of_plus_clean t (ht ▸ hc)
    _ = normList s := ht.symm

end WhatsappApi

/-- C1: the delay policy is a pure total function on an optional
lateness-minutes integer returning exactly one of the four states:
`None ↦ "demora_media"`, `minutos ≤ 5 ↦ "demora_leve"`,
`6..10 ↦ "demora_media"`, `11..15 ↦ "demora_grave"`,
`> 15 ↦ "turno_perdido"`; and `obtener_mensaje_segun_estado` returns a fixed
non-`None` message exactly for these four states, appending the agenda link
for `"demora_grave"`/`"turno_perdido"` when the link is provided and not
already contained, and `None` for every other state string. -/
theorem c1_delay_policy :
    (PolicyEngine.evaluar_politica_demora none = "demora_media") ∧
    (∀ m : Int, m ≤ 5 → PolicyEngine.evaluar_politica_demora (some m) = "demora_leve") ∧
    (∀ m : Int, 6 ≤ m → m ≤ 10 → PolicyEngine.evaluar_politica_demora (some m) = "demora_media") ∧
    (∀ m : Int, 11 ≤ m → m ≤ 15 → PolicyEngine.evaluar_politica_demora (some m) = "demora_grave") ∧
    (∀ m : Int, 15 < m → PolicyEngine.evaluar_politica_demora (some m) = "turno_perdido") ∧
    (∀ m : Option Int, PolicyEngine.evaluar_politica_demora m ∈
      ["demora_leve", "demora_media", "demora_grave", "turno_perdido"]) ∧
    (∀ estado link : String,
      (PolicyEngine.obtener_mensaje_segun_estado estado link ≠ none ↔
        estado ∈ ["demora_leve", "demora_media", "demora_grave", "turno_perdido"])) ∧
    (∀ link, PolicyEngine.obtener_mensaje_segun_estado "demora_leve" link =
      some PolicyEngine.mensaje_demora_leve) ∧
    (∀ link, PolicyEngine.obtener_mensaje_segun_estado "demora_media" link =
      some PolicyEngine.mensaje_demora_media) ∧
    (∀ link, link ≠ "" → ¬ contieneSub link PolicyEngine.mensaje_demora_grave →
      PolicyEngine.obtener_mensaje_segun_estado "demora_grave" link =
        some (PolicyEngine.mensaje_demora_grave ++ "\n\n" ++ link)) ∧
    (∀ link, link ≠ "" → ¬ contieneSub link PolicyEngine.mensaje_turno_perdido →
      PolicyEngine.obtener_mensaje_segun_estado "turno_perdido" link =
        some (PolicyEngine.mensaje_turno_perdido ++ "\n\n" ++ link)) := by
  refine ⟨rfl, ?_, ?_, ?_, ?_, ?_, ?_, ?_, ?_, ?_, ?_⟩
  · intro m h
    simp only [PolicyEngine.evaluar_politica_demora, if_pos h]
  · intro m h6 h10
    have h5 : ¬ m ≤ 5 := by omega
    simp only [PolicyEngine.evaluar_politica_demora, if_neg h5, if_pos h10]
  · intro m h11 h15
    have h5 : ¬ m ≤ 5 := by omega
    have h10 : ¬ m ≤ 10 := by omega
    simp only [PolicyEngine.evaluar_politica_demora, if_neg h5, if_neg h10, if_pos h15]
  · intro m h
    have h5 : ¬ m ≤ 5 := by omega
    have h10 : ¬ m ≤ 10 := by omega
    have h15 : ¬ m ≤ 15 := by omega
    simp only [PolicyEngine.evaluar_politica_demora, if_neg h5, if_neg h10, if_neg h15]
  · intro m
    match m with
    | none => simp [PolicyEngine.evaluar_politica_demora]
    | some v =>
      simp only [PolicyEngine.evaluar_politica_demora]
      split_ifs <;> simp
  · intro estado link
    constructor
    · intro h
      by_contra hmem
      simp only [List.mem_cons, List.not_mem_nil, or_false, not_or] at hmem
      obtain ⟨h1, h2, h3, h4⟩ := hmem
      have e1 : (estado == "demora_leve") = false := beq_eq_false_iff_ne.mpr h1
      have e2 : (estado == "demora_media") = false := beq_eq_false_iff_ne.mpr h2
      have e3 : (estado == "demora_grave") = false := beq_eq_false_iff_ne.mpr h3
      have e4 : (estado == "turno_perdido") = false := beq_eq_false_iff_ne.mpr h4
      apply h
      simp [PolicyEngine.obtener_mensaje_segun_estado, PolicyEngine.mensajes_demora,
        List.lookup, e1, e2, e3, e4]
    · intro hmem
      simp only [List.mem_cons, List.not_mem_nil, or_false] at hmem
      rcases hmem with h | h | h | h <;>
        simp [PolicyEngine.obtener_mensaje_segun_estado, PolicyEngine.mensajes_demora,
          List.lookup, h]
  · intro link
    simp [PolicyEngine.obtener_mensaje_segun_estado, PolicyEngine.mensajes_demora, List.lookup]
  · intro link
    simp [PolicyEngine.obtener_mensaje_segun_estado, PolicyEngine.mensajes_demora, List.lookup]
  · intro link hne hnc
    simp [PolicyEngine.obtener_mensaje_segun_estado, PolicyEngine.mensajes_demora, List.lookup,
      PolicyEngine.agregarLink, hne, hnc]
  · intro link hne hnc
    simp [PolicyEngine.obtener_mensaje_segun_estado, PolicyEngine.mensajes_demora, List.lookup,
      PolicyEngine.agregarLink, hne, hnc]

/-- Closed witness for C1 at concrete inputs. -/
theorem c1_delay_policy_witness :
    PolicyEngine.evaluar_politica_demora (some 12) = "demora_grave" ∧
    PolicyEngine.obtener_mensaje_segun_estado "turno_perdido" "@agenda" =
      some (PolicyEngine.mensaje_turno_perdido ++ "\n\n" ++ "@agenda") :=
  ⟨c1_delay_policy.2.2.2.1 12 (by decide) (by decide),
   c1_delay_policy.2.2.2.2.2.2.2.2.2.2 "@agenda" (by decide) (by decide)⟩

/-- C7: in local mode, `count_tokens` returns `0` on empty text and
`max 1 (len / 4)` on non-empty text, and `validate_and_compress` returns the
message unchanged paired with that estimate whenever the estimate is within
the 4000-token input limit. -/
theorem c7_token_estimate :
    (TokenOptimizer.count_tokens "" = 0) ∧
    (∀ text : String, text ≠ "" →
      TokenOptimizer.count_tokens text = max 1 (text.length / 4)) ∧
    (∀ message : String,
      TokenOptimizer.count_tokens message ≤ TokenOptimizer.MAX_TOKENS_INPUT →
      TokenOptimizer.validate_and_compress message TokenOptimizer.MAX_TOKENS_INPUT =
        (message, TokenOptimizer.count_tokens message)) := by
  refine ⟨rfl, ?_, ?_⟩
  · intro text h
    simp [TokenOptimizer.count_tokens, h]
  · intro message h
    simp [TokenOptimizer.validate_and_compress, h]

/-- Closed witness for C7 at concrete inputs. -/
theorem c7_token_estimate_witness :
    TokenOptimizer.count_tokens "hola bro" = 2 ∧
    TokenOptimizer.validate_and_compress "hola bro" TokenOptimizer.MAX_TOKENS_INPUT =
      ("hola bro", TokenOptimizer.count_tokens "hola bro") :=
  ⟨by rw [c7_token_estimate.2.1 "hola bro" (by decide)]; decide,
   c7_token_estimate.2.2 "hola bro" (by decide)⟩

/-- C10: `normalizar_numero_telefono` always returns a string starting with
`"+"` containing no spaces, hyphens or parentheses, and it is idempotent. -/
theorem c10_normalizar_numero :
    ∀ n : String,
      (∃ t, (WhatsappApi.normalizar_numero_telefono n).data = '+' :: t) ∧
      ((WhatsappApi.normalizar_numero_telefono n).data.all
        (fun c => ! WhatsappApi.charRemovido c)) ∧
      WhatsappApi.normalizar_numero_telefono (WhatsappApi.normalizar_numero_telefono n) =
        WhatsappApi.normalizar_numero_telefono n := by
  intro n
  refine ⟨?_, ?_, ?_⟩
  · obtain ⟨t, ht⟩ := WhatsappApi.normList_head n.data
    exact ⟨t, by simp [WhatsappApi.normalizar_numero_telefono, ht]⟩
  · simpa [WhatsappApi.normalizar_numero_telefono] using WhatsappApi.normList_clean n.data
  · show String.mk (WhatsappApi.normList (String.mk (WhatsappApi.normList n.data)).data) = _
    have hdata : (String.mk (WhatsappApi.normList n.data)).data =
      WhatsappApi.normList n.data := rfl
    rw [hdata, WhatsappApi.normList_idem]
    rfl

namespace ErrorFlow

/-- Default of env var `NUM_DESARROLLADOR` in `Util/error_flow.py`. -/
def NUM_DESARROLLADOR : String := "59891453663"

/-- Default of env var `NUM_RESPONSABLE` in `Util/error_flow.py`. -/
def NUM_RESPONSABLE : String := "59891453663"

/-- The result dict of `enviar_mensaje_whatsapp` as consumed by
`error_flow.py`: `success`, the optional `message_id` field, and the list of
optional per-message `id`s under `messages`. -/
structure SendResult where
  success : Bool
  message_id : Option String
  messages : List (Option String)
  deriving DecidableEq

/-- One value of the `ERROR_CONTEXT` dict: exactly the six fields written by
`register_error_context`.  `timestamp` (`datetime.now()`) is modelled by a
`Nat` supplied by a clock oracle. -/
structure ErrorEntry where
  numero_cliente : String
  numero_responsable : String
  mensaje_cliente : String
  message_id_responsable : String
  timestamp : Nat
  resuelto : Bool
  deriving DecidableEq

/-- The in-memory `ERROR_CONTEXT` dict, as an insertion-ordered association
list from error id to entry. -/
abbrev ErrorContext := List (String × ErrorEntry)

/-- Python dict key lookup `d.get(k)` on the association list. -/
def buscar (k : String) : ErrorContext → Option ErrorEntry
  | [] => none
  | (a, b) :: ps => if k = a then some b else buscar k ps

/-- Python dict assignment `d[k] = v`: replace in place when the key exists,
append otherwise. -/
def dictInsert (ctx : ErrorContext) (k : String) (v : ErrorEntry) : ErrorContext :=
  if (buscar k ctx).isSome then
    ctx.map (fun p => if p.1 = k then (p.1, v) else p)
  else ctx ++ [(k, v)]

/-- From `Util/error_flow.py`, `register_error_context`: store a fresh entry
with `resuelto = False`.  The uuid and `datetime.now()` are oracle inputs. -/
def register_error_context (ctx : ErrorContext) (error_id : String) (now : Nat)
    (numero_cliente numero_responsable message_id_responsable mensaje_cliente : String) :
    ErrorContext :=
  dictInsert ctx error_id
    ⟨numero_cliente, numero_responsable, mensaje_cliente, message_id_responsable, now, false⟩

/-- From `Util/error_flow.py`, `get_error_by_message_id`: first entry in
iteration order whose `message_id_responsable` matches and which is not
resolved. -/
def get_error_by_message_id (ctx : ErrorContext) (message_id : String) :
    Option (String × ErrorEntry) :=
  ctx.find? (fun p => p.2.message_id_responsable == message_id && !p.2.resuelto)

/-- The `sort(key=timestamp, reverse=True)[0]` step of
`get_last_error_by_responsable` on the active entries: Python's sort is
stable, so the result is the first-inserted entry among those with the
maximal timestamp. -/
def lastActivo : List (String × ErrorEntry) → Option (String × ErrorEntry)
  | [] => none
  | p :: ps =>
      match lastActivo ps with
      | none => some p
      | some q => if q.2.timestamp > p.2.timestamp then some q else some p

/-- From `Util/error_flow.py`, `get_last_error_by_responsable`: most recent
unresolved entry for the given responsable number. -/
def get_last_error_by_responsable (ctx : ErrorContext) (numero_responsable : String) :
    Option (String × ErrorEntry) :=
  lastActivo (ctx.filter
    (fun p => p.2.numero_responsable == numero_responsable && !p.2.resuelto))

/-- From `Util/error_flow.py`, `mark_error_resolved`: set `resuelto := true`
on the entry with the given id, if present. -/
def mark_error_resolved (ctx : ErrorContext) (error_id : String) : ErrorContext :=
  if (buscar error_id ctx).isSome then
    ctx.map (fun p => if p.1 = error_id then (p.1, { p.2 with resuelto := true }) else p)
  else ctx

/-- The message-id extraction of `notify_responsable`: on success take the
`message_id` field if truthy, else the first element of `messages` when
non-empty. -/
def extraer_message_id (resultado : SendResult) : Option String :=
  if resultado.success then
    let m := resultado.message_id
    if pyStrTruthy m then m
    else
      match resultado.messages with
      | [] => m
      | first :: _ => first
  else none

/-- Text sent to the developer by `notify_developer`; the exception is
modelled by its type name, message and formatted traceback. -/
def mensaje_desarrollador (error_type error_msg traceback mensaje_cliente
    numero_cliente contexto : String) : String :=
  "🔴 *Error técnico en bot*\n\n👤 Cliente: " ++ numero_cliente ++
  "\n💬 Mensaje original: " ++ mensaje_cliente ++
  "\n📍 Contexto: " ++ contexto ++
  "\n❌ Error: " ++ error_type ++
  "\n📝 Detalle: " ++ error_msg ++
  "\n\n📋 *Traceback completo:*\n```\n" ++ traceback ++ "\n```"

/-- Text sent to the responsable by `notify_responsable`. -/
def mensaje_responsable_texto (mensaje_cliente numero_cliente : String) : String :=
  "⚠️ Error atendiendo a un cliente\n\nCliente: " ++ numero_cliente ++
  "\nMensaje: " ++ mensaje_cliente ++
  "\n\nRespondé a este mensaje para contestarle al cliente."

/-- Automatic reply of `respond_to_client`. -/
def mensaje_cliente_auto : String := "Bro ando atendiendo un cliente enseguida te respondo"

/-- `notify_developer`: skipped when the developer number is the placeholder,
otherwise one send.  The send result only affects logging. -/
def notify_developer_sends (msg : String) : List (String × String) :=
  if NUM_DESARROLLADOR = "<NUMERO>" then [] else [(NUM_DESARROLLADOR, msg)]

/-- `notify_responsable`: the sends performed and the extracted message id.
`respRes` is the WhatsApp API result oracle for this send. -/
def notify_responsable (mensaje_cliente numero_cliente : String) (respRes : SendResult) :
    List (String × String) × Option String :=
  if NUM_RESPONSABLE = "<NUMERO>" then ([], none)
  else ([(NUM_RESPONSABLE, mensaje_responsable_texto mensaje_cliente numero_cliente)],
        extraer_message_id respRes)

/-- From `Util/error_flow.py`, `handle_critical_exception`: notify developer,
notify responsable, auto-reply to client, and register an `ERROR_CONTEXT`
entry when a truthy message id was obtained.  Returns the ordered list of
outbound sends `(recipient, text)` and the new `ERROR_CONTEXT`. -/
def handle_critical_exception (error_type error_msg traceback : String)
    (mensaje_cliente numero_cliente contexto : String) (respRes : SendResult)
    (error_id : String) (now : Nat) (ctx : ErrorContext) :
    List (String × String) × ErrorContext :=
  let devSends := notify_developer_sends
    (mensaje_desarrollador error_type error_msg traceback mensaje_cliente numero_cliente contexto)
  let r := notify_responsable mensaje_cliente numero_cliente respRes
  let cliSends := [(numero_cliente, mensaje_cliente_auto)]
  let ctx' :=
    if pyStrTruthy r.2 then
      register_error_context ctx error_id now numero_cliente NUM_RESPONSABLE
        (r.2.getD "") mensaje_cliente
    else ctx
  (devSends ++ r.1 ++ cliSends, ctx')

/-- The error lookup step of `handle_responsable_reply`: by replied message
id when that id is truthy, otherwise the last active error of the
responsable. -/
def respuesta_error_buscado (ctx : ErrorContext) (numero_responsable : String)
    (replied_message_id : Option String) : Option (String × ErrorEntry) :=
  if pyStrTruthy replied_message_id then
    get_error_by_message_id ctx (replied_message_id.getD "")
  else
    get_last_error_by_responsable ctx numero_responsable

/-- From `Util/error_flow.py`, `handle_responsable_reply`: find the error,
forward the responsable's text verbatim to the stored client, and mark the
entry resolved when the forward succeeds.  `sendOk` is the WhatsApp API
success oracle for the forward.  Returns (Python return value, sends, new
context). -/
def handle_responsable_reply (ctx : ErrorContext)
    (numero_responsable mensaje_responsable : String)
    (replied_message_id : Option String) (sendOk : Bool) :
    Bool × List (String × String) × ErrorContext :=
  match respuesta_error_buscado ctx numero_responsable replied_message_id with
  | none => (false, [], ctx)
  | some (error_id, e) =>
      if e.numero_cliente = "" then (false, [], ctx)
      else if sendOk then
        (true, [(e.numero_cliente, mensaje_responsable)], mark_error_resolved ctx error_id)
      else
        (false, [(e.numero_cliente, mensaje_responsable)], ctx)

/-- The `ERROR_CONTEXT`-mutating operations of the module, for the C6
invariants. -/
inductive Op where
  | registrar (error_id : String) (now : Nat)
      (numero_cliente numero_responsable message_id_responsable mensaje_cliente : String)
  | resolver (error_id : String)
  | critico (error_type error_msg traceback mensaje_cliente numero_cliente contexto : String)
      (respRes : SendResult) (error_id : String) (now : Nat)
  | responder (numero_responsable mensaje_responsable : String)
      (replied_message_id : Option String) (sendOk : Bool)

/-- Effect of each operation on `ERROR_CONTEXT`. -/
def aplicarOp : Op → ErrorContext → ErrorContext
  | .registrar eid now ncli nresp mid mcli, ctx =>
      register_error_context ctx eid now ncli nresp mid mcli
  | .resolver eid, ctx => mark_error_resolved ctx eid
  | .critico et em tb mcli ncli ctxt r eid now, ctx =>
      (handle_critical_exception et em tb mcli ncli ctxt r eid now ctx).2
  | .responder nresp mmsg rmid ok, ctx =>
      (handle_responsable_reply ctx nresp mmsg rmid ok).2.2

/-- Freshness of uuid-generated ids: the registering operations never reuse a
live key (uuid4 collisions are out of the model). -/
def opFresh : Op → ErrorContext → Prop
  | .registrar eid _ _ _ _ _, ctx => buscar eid ctx = none
  | .critico _ _ _ _ _ _ _ eid _, ctx => buscar eid ctx = none
  | _, _ => True

theorem buscar_append_left (l l' : ErrorContext) (k : String)
    (h : (buscar k l).isSome) : buscar k (l ++ l') = buscar k l := by
  induction l with
  | nil => simp [buscar] at h
  | cons p ps ih =>
    obtain ⟨a, b⟩ := p
    by_cases hk : k = a
    · simp [buscar, hk]
    · simp only [buscar, if_neg hk] at h
      simp only [List.cons_append, buscar, if_neg hk]
      exact ih h

theorem buscar_cons (k a : String) (b : ErrorEntry) (ps : ErrorContext) :
    buscar k ((a, b) :: ps) = if k = a then some b else buscar k ps := rfl

theorem buscar_map_ite (l : ErrorContext) (k eid : String) (f : ErrorEntry → ErrorEntry) :
    buscar k (l.map (fun p => if p.1 = eid then (p.1, f p.2) else p)) =
      (buscar k l).map (fun v => if k = eid then f v else v) := by
  induction l with
  | nil => simp [buscar]
  | cons p ps ih =>
    obtain ⟨a, b⟩ := p
    rw [List.map_cons]
    by_cases ha : (a, b).1 = eid
    · rw [if_pos ha]
      show buscar k ((a, f b) :: _) = _
      rw [buscar_cons, buscar_cons]
      by_cases hk : k = a
      · rw [if_pos hk, if_pos hk, Option.map_some']
        rw [if_pos (hk.trans ha)]
      · rw [if_neg hk, if_neg hk]
        exact ih
    · rw [if_neg ha]
      rw [buscar_cons, buscar_cons]
      by_cases hk : k = a
      · rw [if_pos hk, if_pos hk, Option.map_some']
        rw [if_neg (fun h => ha (hk.symm.trans h))]
      · rw [if_neg hk, if_neg hk]
        exact ih

theorem lastActivo_mem (l : List (String × ErrorEntry)) (p : String × ErrorEntry)
    (h : lastActivo l = some p) : p ∈ l := by
  induction l with
  | nil => simp [lastActivo] at h
  | cons q qs ih =>
    cases hq : lastActivo qs with
    | none =>
      simp only [lastActivo, hq, Option.some.injEq] at h
      simp [← h]
    | some r =>
      simp only [lastActivo, hq] at h
      by_cases hcmp : r.2.timestamp > q.2.timestamp
      · rw [if_pos hcmp] at h
        simp only [Option.some.injEq] at h
        exact List.mem_cons_of_mem _ (ih (h ▸ hq))
      · rw [if_neg hcmp] at h
        simp only [Option.some.injEq] at h
        simp [← h]

theorem buscar_append_single (l : ErrorContext) (k' : String) (v : ErrorEntry) (k : String)
    (h : buscar k' l = none) :
    buscar k (l ++ [(k', v)]) = if k = k' then some v else buscar k l := by
  induction l with
  | nil => rfl
  | cons p ps ih =>
    obtain ⟨a, b⟩ := p
    rw [buscar_cons] at h
    by_cases ha : k' = a
    · rw [if_pos ha] at h
      exact absurd h (by simp)
    · rw [if_neg ha] at h
      rw [List.cons_append, buscar_cons, buscar_cons]
      by_cases hk : k = a
      · rw [if_pos hk, if_pos hk, if_neg (fun he => ha (he.symm.trans hk))]
      · rw [if_neg hk, if_neg hk]
        exact ih h

theorem buscar_register (ctx : ErrorContext) (eid : String) (now : Nat)
    (ncli nresp mid mcli : String) (k : String) (h : buscar eid ctx = none) :
    buscar k (register_error_context ctx eid now ncli nresp mid mcli) =
      if k = eid then some ⟨ncli, nresp, mcli, mid, now, false⟩ else buscar k ctx := by
  unfold register_error_context dictInsert
  rw [if_neg (by simp [h])]
  exact buscar_append_single ctx eid _ k h

theorem buscar_mark (ctx : ErrorContext) (eid k : String) :
    buscar k (mark_error_resolved ctx eid) =
      (buscar k ctx).map (fun v => if k = eid then { v with resuelto := true } else v) := by
  unfold mark_error_resolved
  split
  · exact buscar_map_ite ctx k eid (fun v => { v with resuelto := true })
  · next hns =>
    by_cases hk : k = eid
    · subst hk
      have : buscar k ctx = none := by
        cases h : buscar k ctx with
        | none => rfl
        | some v => rw [h] at hns; simp at hns
      rw [this]
      rfl
    · cases h : buscar k ctx with
      | none => rfl
      | some v => simp [hk]

theorem handle_critical_ctx (et em tb mcli ncli ctxt : String) (r : SendResult)
    (eid : String) (now : Nat) (ctx : ErrorContext) :
    (handle_critical_exception et em tb mcli ncli ctxt r eid now ctx).2 =
      if pyStrTruthy (extraer_message_id r) then
        register_error_context ctx eid now ncli NUM_RESPONSABLE
          ((extraer_message_id r).getD "") mcli
      else ctx := by
  unfold handle_critical_exception notify_responsable
  rw [if_neg (by decide : ¬ (NUM_RESPONSABLE = "<NUMERO>"))]

theorem handle_reply_ctx_cases (ctx : ErrorContext) (nresp mmsg : String)
    (rmid : Option String) (ok : Bool) :
    (handle_responsable_reply ctx nresp mmsg rmid ok).2.2 = ctx ∨
    ∃ eid, (handle_responsable_reply ctx nresp mmsg rmid ok).2.2 =
      mark_error_resolved ctx eid := by
  unfold handle_responsable_reply
  cases hb : respuesta_error_buscado ctx nresp rmid with
  | none => exact Or.inl rfl
  | some p =>
    obtain ⟨eid, e⟩ := p
    by_cases hne : e.numero_cliente = ""
    · exact Or.inl (by simp [hne])
    · cases ok with
      | true => exact Or.inr ⟨eid, by simp [hne]⟩
      | false => exact Or.inl (by simp [hne])

theorem get_error_by_message_id_unresolved (ctx : ErrorContext) (mid : String)
    (r : String × ErrorEntry) (h : get_error_by_message_id ctx mid = some r) :
    r.2.resuelto = false := by
  have := List.find?_some h
  simp only [Bool.and_eq_true, Bool.not_eq_true'] at this
  exact this.2

theorem get_last_error_unresolved (ctx : ErrorContext) (nr : String)
    (r : String × ErrorEntry) (h : get_last_error_by_responsable ctx nr = some r) :
    r.2.resuelto = false := by
  have hmem := lastActivo_mem _ _ h
  have := (List.mem_filter.mp hmem).2
  simp only [Bool.and_eq_true, Bool.not_eq_true'] at this
  exact this.2

/-- C3: `handle_critical_exception` performs, in order, a notification to the
developer number, a notification to the responsable number, and an automatic
reply to the client, and it registers a new `ERROR_CONTEXT` entry (with
`resuelto = False` and the responsable's outbound message id) if and only if
a truthy message id was obtained from the responsable notification.  The
freshness hypothesis models uuid uniqueness of the new error id. -/
theorem c3_critical_exception_flow :
    ∀ (etype emsg tb mcli ncli ctxt : String) (respRes : ErrorFlow.SendResult)
      (eid : String) (now : Nat) (ctx : ErrorFlow.ErrorContext),
      ErrorFlow.buscar eid ctx = none →
      ((ErrorFlow.handle_critical_exception etype emsg tb mcli ncli ctxt respRes eid now ctx).1 =
        [(ErrorFlow.NUM_DESARROLLADOR,
            ErrorFlow.mensaje_desarrollador etype emsg tb mcli ncli ctxt),
         (ErrorFlow.NUM_RESPONSABLE, ErrorFlow.mensaje_responsable_texto mcli ncli),
         (ncli, ErrorFlow.mensaje_cliente_auto)]) ∧
      (pyStrTruthy (ErrorFlow.extraer_message_id respRes) = true →
        (ErrorFlow.handle_critical_exception etype emsg tb mcli ncli ctxt respRes eid now ctx).2 =
          ctx ++ [(eid, ⟨ncli, ErrorFlow.NUM_RESPONSABLE, mcli,
            (ErrorFlow.extraer_message_id respRes).getD "", now, false⟩)]) ∧
      (pyStrTruthy (ErrorFlow.extraer_message_id respRes) = false →
        (ErrorFlow.handle_critical_exception etype emsg tb mcli ncli ctxt respRes eid now ctx).2 =
          ctx) := by
  intro etype emsg tb mcli ncli ctxt respRes eid now ctx hfresh
  refine ⟨?_, ?_, ?_⟩
  · unfold ErrorFlow.handle_critical_exception ErrorFlow.notify_developer_sends
      ErrorFlow.notify_responsable
    rw [if_neg (by decide : ¬ (ErrorFlow.NUM_DESARROLLADOR = "<NUMERO>")),
        if_neg (by decide : ¬ (ErrorFlow.NUM_RESPONSABLE = "<NUMERO>"))]
    rfl
  · intro ht
    rw [ErrorFlow.handle_critical_ctx, if_pos ht]
    unfold ErrorFlow.register_error_context ErrorFlow.dictInsert
    rw [if_neg (by simp [hfresh])]
  · intro ht
    rw [ErrorFlow.handle_critical_ctx, if_neg (by simp [ht])]

/-- Closed witness for C3 at concrete inputs. -/
theorem c3_critical_exception_flow_witness :
    (ErrorFlow.handle_critical_exception "ValueError" "boom" "tb" "hola" "59812345" "webhook_server"
        ⟨true, some "wamid.9", []⟩ "e1" 7 []).2 =
      [] ++ [("e1", ⟨"59812345", ErrorFlow.NUM_RESPONSABLE, "hola",
        (ErrorFlow.extraer_message_id ⟨true, some "wamid.9", []⟩).getD "", 7, false⟩)] :=
  (c3_critical_exception_flow "ValueError" "boom" "tb" "hola" "59812345" "webhook_server"
    ⟨true, some "wamid.9", []⟩ "e1" 7 [] rfl).2.1 (by decide)

/-- C4 counterexample: an unresolved `ERROR_CONTEXT` entry matches the
replied message id, yet when the WhatsApp forward to the client fails,
`handle_responsable_reply` returns `False` and leaves the entry unresolved —
contradicting the claim that a matching entry always yields `True` and a
resolved entry. -/
theorem c4_responsable_reply_counterexample :
    ErrorFlow.respuesta_error_buscado
        [("e1", ⟨"+598111", "59891453663", "hola", "wamid.X", 5, false⟩)]
        "59891453663" (some "wamid.X") =
      some ("e1", ⟨"+598111", "59891453663", "hola", "wamid.X", 5, false⟩) ∧
    (ErrorFlow.handle_responsable_reply
        [("e1", ⟨"+598111", "59891453663", "hola", "wamid.X", 5, false⟩)]
        "59891453663" "listo" (some "wamid.X") false).1 = false ∧
    (ErrorFlow.handle_responsable_reply
        [("e1", ⟨"+598111", "59891453663", "hola", "wamid.X", 5, false⟩)]
        "59891453663" "listo" (some "wamid.X") false).2.2 =
      [("e1", ⟨"+598111", "59891453663", "hola", "wamid.X", 5, false⟩)] := by
  refine ⟨by decide, by decide, by decide⟩

/-- C4 (amended): when an unresolved entry matches (by truthy replied message
id, else the most recent unresolved entry of the responsable), the
responsable's text is forwarded verbatim to the stored client number; if that
number is non-empty and the forward succeeds the call returns `True` and
marks exactly that entry resolved; if the forward fails it returns `True`'s
negation with the context unchanged; and when no unresolved entry matches the
call returns `False`, forwards nothing, and leaves the context unchanged. -/
theorem c4_responsable_reply (ctx : ErrorFlow.ErrorContext) (nresp mmsg : String)
    (rmid : Option String) :
    (∀ eid e, ErrorFlow.respuesta_error_buscado ctx nresp rmid = some (eid, e) →
      e.numero_cliente ≠ "" →
      (ErrorFlow.handle_responsable_reply ctx nresp mmsg rmid true =
        (true, [(e.numero_cliente, mmsg)], ErrorFlow.mark_error_resolved ctx eid)) ∧
      (ErrorFlow.buscar eid (ErrorFlow.mark_error_resolved ctx eid) =
        (ErrorFlow.buscar eid ctx).map (fun v => { v with resuelto := true })) ∧
      (∀ k, k ≠ eid → ErrorFlow.buscar k (ErrorFlow.mark_error_resolved ctx eid) =
        ErrorFlow.buscar k ctx) ∧
      (ErrorFlow.handle_responsable_reply ctx nresp mmsg rmid false =
        (false, [(e.numero_cliente, mmsg)], ctx))) ∧
    (ErrorFlow.respuesta_error_buscado ctx nresp rmid = none →
      ∀ sendOk, ErrorFlow.handle_responsable_reply ctx nresp mmsg rmid sendOk =
        (false, [], ctx)) := by
  constructor
  · intro eid e h hne
    refine ⟨?_, ?_, ?_, ?_⟩
    · unfold ErrorFlow.handle_responsable_reply
      rw [h]
      simp [hne]
    · rw [ErrorFlow.buscar_mark]
      cases hb : ErrorFlow.buscar eid ctx <;> simp
    · intro k hk
      rw [ErrorFlow.buscar_mark]
      cases hb : ErrorFlow.buscar k ctx <;> simp [hk]
    · unfold ErrorFlow.handle_responsable_reply
      rw [h]
      simp [hne]
  · intro h sendOk
    unfold ErrorFlow.handle_responsable_reply
    rw [h]

/-- Closed witness for C4 at concrete inputs. -/
theorem c4_responsable_reply_witness :
    ErrorFlow.handle_responsable_reply
        [("e1", ⟨"+598111", "59891453663", "hola", "wamid.X", 5, false⟩)]
        "59891453663" "listo" (some "wamid.X") true =
      (true, [("+598111", "listo")],
        ErrorFlow.mark_error_resolved
          [("e1", ⟨"+598111", "59891453663", "hola", "wamid.X", 5, false⟩)] "e1") :=
  ((c4_responsable_reply
      [("e1", ⟨"+598111", "59891453663", "hola", "wamid.X", 5, false⟩)]
      "59891453663" "listo" (some "wamid.X")).1 "e1"
    ⟨"+598111", "59891453663", "hola", "wamid.X", 5, false⟩ (by decide) (by decide)).1

/-- C6: entries of `ERROR_CONTEXT` are records with exactly the six fields of
`ErrorFlow.ErrorEntry`; under every context-mutating operation of the module
(with uuid-fresh ids for the registering ones) no key is ever removed and the
`resuelto` flag only moves from `false` to `true`; and the two lookups return
only unresolved entries. -/
theorem c6_error_context_invariants :
    ∀ (op : ErrorFlow.Op) (ctx : ErrorFlow.ErrorContext), ErrorFlow.opFresh op ctx →
      (∀ k, (ErrorFlow.buscar k ctx).isSome →
        (ErrorFlow.buscar k (ErrorFlow.aplicarOp op ctx)).isSome) ∧
      (∀ k e e', ErrorFlow.buscar k ctx = some e →
        ErrorFlow.buscar k (ErrorFlow.aplicarOp op ctx) = some e' →
        e.resuelto = true → e'.resuelto = true) ∧
      (∀ mid r, ErrorFlow.get_error_by_message_id ctx mid = some r →
        r.2.resuelto = false) ∧
      (∀ nr r, ErrorFlow.get_last_error_by_responsable ctx nr = some r →
        r.2.resuelto = false) := by
  intro op ctx hfresh
  have hmark : ∀ eid, (∀ k, (ErrorFlow.buscar k ctx).isSome →
      (ErrorFlow.buscar k (ErrorFlow.mark_error_resolved ctx eid)).isSome) ∧
      (∀ k e e', ErrorFlow.buscar k ctx = some e →
        ErrorFlow.buscar k (ErrorFlow.mark_error_resolved ctx eid) = some e' →
        e.resuelto = true → e'.resuelto = true) := by
    intro eid
    constructor
    · intro k hk
      rw [ErrorFlow.buscar_mark]
      cases h : ErrorFlow.buscar k ctx with
      | none => rw [h] at hk; simp at hk
      | some v => simp
    · intro k e e' he he' hres
      rw [ErrorFlow.buscar_mark, he] at he'
      simp only [Option.map_some', Option.some.injEq] at he'
      by_cases hk : k = eid
      · rw [if_pos hk] at he'
        rw [← he']
      · rw [if_neg hk] at he'
        rw [← he', hres]
  have hid : (∀ k, (ErrorFlow.buscar k ctx).isSome → (ErrorFlow.buscar k ctx).isSome) ∧
      (∀ k e e', ErrorFlow.buscar k ctx = some e → ErrorFlow.buscar k ctx = some e' →
        e.resuelto = true → e'.resuelto = true) := by
    refine ⟨fun k hk => hk, fun k e e' he he' hres => ?_⟩
    rw [he] at he'
    simp only [Option.some.injEq] at he'
    rw [← he', hres]
  have hreg : ∀ eid now ncli nresp mid mcli, ErrorFlow.buscar eid ctx = none →
      (∀ k, (ErrorFlow.buscar k ctx).isSome →
        (ErrorFlow.buscar k
          (ErrorFlow.register_error_context ctx eid now ncli nresp mid mcli)).isSome) ∧
      (∀ k e e', ErrorFlow.buscar k ctx = some e →
        ErrorFlow.buscar k
          (ErrorFlow.register_error_context ctx eid now ncli nresp mid mcli) = some e' →
        e.resuelto = true → e'.resuelto = true) := by
    intro eid now ncli nresp mid mcli hf
    constructor
    · intro k hk
      rw [ErrorFlow.buscar_register ctx eid now ncli nresp mid mcli k hf]
      split <;> simp [hk]
    · intro k e e' he he' hres
      rw [ErrorFlow.buscar_register ctx eid now ncli nresp mid mcli k hf] at he'
      by_cases hk : k = eid
      · rw [hk, hf] at he
        exact Option.noConfusion he
      · rw [if_neg hk, he] at he'
        simp only [Option.some.injEq] at he'
        rw [← he', hres]
  have main : ∀ ctx' : ErrorFlow.ErrorContext,
      (ctx' = ctx ∨ (∃ eid, ctx' = ErrorFlow.mark_error_resolved ctx eid) ∨
        (∃ eid now ncli nresp mid mcli, ErrorFlow.buscar eid ctx = none ∧
          ctx' = ErrorFlow.register_error_context ctx eid now ncli nresp mid mcli)) →
      (∀ k, (ErrorFlow.buscar k ctx).isSome → (ErrorFlow.buscar k ctx').isSome) ∧
      (∀ k e e', ErrorFlow.buscar k ctx = some e → ErrorFlow.buscar k ctx' = some e' →
        e.resuelto = true → e'.resuelto = true) := by
    rintro ctx' (rfl | ⟨eid, rfl⟩ | ⟨eid, now, ncli, nresp, mid, mcli, hf, rfl⟩)
    · exact hid
    · exact hmark eid
    · exact hreg eid now ncli nresp mid mcli hf
  have hshape : ErrorFlow.aplicarOp op ctx = ctx ∨
      (∃ eid, ErrorFlow.aplicarOp op ctx = ErrorFlow.mark_error_resolved ctx eid) ∨
      (∃ eid now ncli nresp mid mcli, ErrorFlow.buscar eid ctx = none ∧
        ErrorFlow.aplicarOp op ctx =
          ErrorFlow.register_error_context ctx eid now ncli nresp mid mcli) := by
    cases op with
    | registrar eid now ncli nresp mid mcli =>
      exact Or.inr (Or.inr ⟨eid, now, ncli, nresp, mid, mcli, hfresh, rfl⟩)
    | resolver eid => exact Or.inr (Or.inl ⟨eid, rfl⟩)
    | critico et em tb mcli ncli ctxt r eid now =>
      have hctx : ErrorFlow.aplicarOp (ErrorFlow.Op.critico et em tb mcli ncli ctxt r eid now) ctx =
          if pyStrTruthy (ErrorFlow.extraer_message_id r) then
            ErrorFlow.register_error_context ctx eid now ncli ErrorFlow.NUM_RESPONSABLE
              ((ErrorFlow.extraer_message_id r).getD "") mcli
          else ctx := ErrorFlow.handle_critical_ctx et em tb mcli ncli ctxt r eid now ctx
      by_cases hc : pyStrTruthy (ErrorFlow.extraer_message_id r) = true
      · rw [if_pos hc] at hctx
        exact Or.inr (Or.inr ⟨eid, now, ncli, ErrorFlow.NUM_RESPONSABLE,
          (ErrorFlow.extraer_message_id r).getD "", mcli, hfresh, hctx⟩)
      · rw [if_neg hc] at hctx
        exact Or.inl hctx
    | responder nresp mmsg rmid sendOk =>
      show (ErrorFlow.handle_responsable_reply ctx nresp mmsg rmid sendOk).2.2 = _ ∨ _
      rcases ErrorFlow.handle_reply_ctx_cases ctx nresp mmsg rmid sendOk with hcase | ⟨eid, hcase⟩
      · exact Or.inl hcase
      · exact Or.inr (Or.inl ⟨eid, hcase⟩)
  exact ⟨(main _ hshape).1, (main _ hshape).2,
    ErrorFlow.get_error_by_message_id_unresolved ctx,
    ErrorFlow.get_last_error_unresolved ctx⟩

/-- Closed witness for C6 at a concrete operation and store. -/
theorem c6_error_context_invariants_witness :
    (ErrorFlow.buscar "e1"
      (ErrorFlow.aplicarOp (ErrorFlow.Op.registrar "e2" 2 "c2" "r2" "w2" "m2")
        [("e1", ⟨"c1", "r1", "m1", "w1", 1, false⟩)])).isSome = true :=
  (c6_error_context_invariants (ErrorFlow.Op.registrar "e2" 2 "c2" "r2" "w2" "m2")
    [("e1", ⟨"c1", "r1", "m1", "w1", 1, false⟩)]
    (by show ErrorFlow.buscar "e2" _ = none; decide)).1 "e1" (by decide)

end ErrorFlow

namespace RespuestasBarberia

/-- Python `str.lower()` restricted to the character repertoire of this bot:
ASCII letters plus the Spanish accented uppercase vowels and `Ñ`/`Ü`. -/
def pyLowerChar (c : Char) : Char :=
  if c = 'Á' then 'á'
  else if c = 'É' then 'é'
  else if c = 'Í' then 'í'
  else if c = 'Ó' then 'ó'
  else if c = 'Ú' then 'ú'
  else if c = 'Ü' then 'ü'
  else if c = 'Ñ' then 'ñ'
  else c.toLower

def pyLower (s : String) : String := String.mk (s.data.map pyLowerChar)

/-- The `keywords_map` dict of `detectar_intencion_respuesta` in
`Util/respuestas_barberia.py`, in insertion order: keyword tuples mapping to
`(intencion, clave)`. -/
def keywords_map : List (List String × String × String) :=
  [(["cuanto sale", "cuánto sale", "precio", "precios", "cuánto cuesta", "cuanto cuesta", "tarifa", "costo"], ("precios", "cuanto_sale")),
   (["más barato", "mas barato", "más económico", "mas economico", "otros lados", "otro lugar", "más caro", "mas caro"], ("precios", "mas_barato_otros_lados")),
   (["donde están", "dónde están", "donde estan", "ubicación", "ubicacion", "dirección", "direccion", "direccion", "donde queda", "dónde queda"], ("ubicacion", "donde_estan")),
   (["turno hoy", "turno para hoy", "hora hoy", "tenes hora hoy", "tienes hora hoy", "disponible hoy"], ("turnos", "turno_hoy")),
   (["agendar con tiempo", "reservar con tiempo", "con cuánto tiempo", "con cuanto tiempo", "anticipación", "anticipacion"], ("turnos", "agendar_con_tiempo")),
   (["salgo del laburo", "salgo del trabajo", "salgo a las", "horarios después", "horarios despues", "después del trabajo", "despues del trabajo"], ("turnos", "horarios_salida_trabajo")),
   (["no hay horarios", "no hay turnos", "no quedan turnos", "no quedan horarios", "sin horarios", "sin turnos"], ("turnos", "no_horarios_disponibles")),
   (["no veo horarios hoy", "no aparecen horarios hoy", "no hay para hoy", "no queda nada hoy"], ("turnos", "no_veo_horarios_hoy")),
   (["no aparecen horarios", "no veo horarios", "no hay disponibilidad"], ("situaciones", "no_aparen_horarios_agenda")),
   (["qué incluye", "que incluye", "que trae", "qué trae", "incluye", "qué viene", "que viene"], ("servicios", "que_incluye_corte")),
   (["qué es asesoramiento", "que es asesoramiento", "qué es el asesoramiento", "que es el asesoramiento", "asesoramiento", "asesoría", "asesoria"], ("servicios", "que_es_asesoramiento")),
   (["solo barba", "solo la barba", "hacen barba", "arreglan barba", "barba sola"], ("servicios", "solo_barba")),
   (["hacen tinta", "hacen tatuajes", "tatuajes", "tinta"], ("servicios", "hacen_tinta")),
   (["asesoría se cobra", "asesoria se cobra", "asesoramiento se cobra", "se cobra aparte", "cobra aparte"], ("servicios", "asesoria_se_cobra_aparte")),
   (["cuánto demora", "cuanto demora", "cuánto tarda", "cuanto tarda", "duración", "duracion", "tiempo demora"], ("tiempo", "cuanto_demora")),
   (["pago con tarjeta", "aceptan tarjeta", "tarjeta de crédito", "tarjeta de credito", "tarjeta", "débito", "debito"], ("pago", "pago_tarjeta")),
   (["venden productos", "venden cera", "productos a la venta", "productos en venta", "comprar productos", "comprar cera"], ("productos", "venden_productos")),
   (["reagendar", "re agendar", "cambiar turno", "cambiar cita", "mover turno"], ("cancelaciones", "cancelar_reagendar_1")),
   (["no voy a poder", "no puedo llegar", "no puedo ir", "cancelar", "cancelar turno", "cancelar cita"], ("cancelaciones", "cancelar_reagendar_2")),
   (["no pude llegar", "no llegué", "no llegue", "perdí el turno", "perdi el turno", "se me pasó", "se me paso"], ("cancelaciones", "no_pude_llegar")),
   (["voy ahora", "caer ahora", "sin agenda", "sin reserva", "sin turno", "llegar ahora"], ("situaciones", "caer_sin_agenda")),
   (["dos personas", "somos dos", "dos turnos", "vamos dos", "con otra persona"], ("situaciones", "dos_personas")),
   (["no me manejo", "no manejo web", "no sé usar", "no se usar", "ayuda con web", "ayuda reservar"], ("situaciones", "no_manejo_web")),
   (["no encuentro", "no encuentro el lugar", "está cerrado", "esta cerrado", "cerrado", "no lo encuentro"], ("situaciones", "no_encuentro_lugar")),
   (["llegando tarde", "llegando 10", "llegando 15", "atrasado", "me atrasé", "me atrase", "llegando unos minutos"], ("situaciones", "llegando_tarde")),
   (["llegando 30", "llegando 40", "muy tarde", "muy atrasado", "atraso largo", "llegando mucho más tarde"], ("situaciones", "llegando_muy_tarde")),
   (["política", "politica", "horarios", "respeto turnos", "cancelar con tiempo"], ("situaciones", "politica_horarios")),
   (["ya me corté", "ya me corte", "me corté hace poco", "me corte hace poco", "corté hace poco", "corte hace poco"], ("otros", "ya_me_corte")),
   (["son de montevideo", "están en montevideo", "estan en montevideo", "montevideo", "de dónde son", "de donde son"], ("otros", "son_de_montevideo"))]

/-- The scan loop of `detectar_intencion_respuesta`: return the
`(intencion, clave)` of the first keyword group with a keyword contained in
the lowered text. -/
def buscarKeyword (texto_lower : String) :
    List (List String × String × String) → Option (String × String)
  | [] => none
  | (kws, r) :: rest =>
      if kws.any (fun kw => contieneSub kw texto_lower) then some r
      else buscarKeyword texto_lower rest

/-- From `Util/respuestas_barberia.py`, `detectar_intencion_respuesta`:
`None` on empty text, else the first keyword-group match against
`texto.lower().strip()`. -/
def detectar_intencion_respuesta (texto : String) : Option (String × String) :=
  if texto = "" then none
  else buscarKeyword (pyStrip (pyLower texto)) keywords_map

end RespuestasBarberia

namespace IntentDetector

/-- Result of `detectar_intencion_unificada`: the detected intent, the layer
it came from, and the matched `clave` metadata (absent for the basic keyword
layer, whose metadata dict is empty). -/
structure IntencionDetectada where
  intencion : String
  fuente : String
  clave : Option String
  deriving DecidableEq

/-- From `Util/intent_detector.py`, `detectar_intencion_unificada`.
`kwLayer` stands for `Util.intents.detectar_intencion`, whose source file is
not in the repository snapshot (only its callers are); per the spec it is an
ordered keyword-substring scan, and only its `Option`-valued outcome matters
here, so it is an oracle parameter.  `gemini` is the outcome oracle of the
`detectar_clave_con_gemini` network call: `.error` models a raised
exception. -/
def detectar_intencion_unificada (kwLayer : String → Option String)
    (gemini : String → Except Unit (Option (String × String))) (texto : String) :
    Option IntencionDetectada :=
  if texto = "" then none
  else
    match kwLayer texto with
    | some intencion => some ⟨intencion, "keywords", none⟩
    | none =>
        match RespuestasBarberia.detectar_intencion_respuesta texto with
        | some (intencion, clave) => some ⟨intencion, "predefinidas", some clave⟩
        | none =>
            if (pyStrip texto).length > 10 then
              match gemini texto with
              | .ok (some (intencion, clave)) => some ⟨intencion, "gemini", some clave⟩
              | .ok none => none
              | .error _ => none
            else none

end IntentDetector

/-- C5: `detectar_intencion_unificada` applies its layers in a fixed order:
`None` on empty text; a basic-keyword match returns that intent with source
`"keywords"`; otherwise a predefined-response keyword match returns that
intent with source `"predefinidas"` and the matched clave; the Gemini
fallback is consulted only when both keyword layers fail and the stripped
text is longer than 10 characters (the result does not depend on the Gemini
oracle otherwise); and a Gemini failure yields `None` rather than an
exception. -/
theorem c5_intent_layers :
    ∀ (kwLayer : String → Option String)
      (g g' : String → Except Unit (Option (String × String))) (texto : String),
      (texto = "" → IntentDetector.detectar_intencion_unificada kwLayer g texto = none) ∧
      (∀ i, texto ≠ "" → kwLayer texto = some i →
        IntentDetector.detectar_intencion_unificada kwLayer g texto =
          some ⟨i, "keywords", none⟩) ∧
      (∀ i clave, texto ≠ "" → kwLayer texto = none →
        RespuestasBarberia.detectar_intencion_respuesta texto = some (i, clave) →
        IntentDetector.detectar_intencion_unificada kwLayer g texto =
          some ⟨i, "predefinidas", some clave⟩) ∧
      (kwLayer texto ≠ none ∨
        RespuestasBarberia.detectar_intencion_respuesta texto ≠ none ∨
        ¬ (pyStrip texto).length > 10 →
        IntentDetector.detectar_intencion_unificada kwLayer g texto =
          IntentDetector.detectar_intencion_unificada kwLayer g' texto) ∧
      (texto ≠ "" → kwLayer texto = none →
        RespuestasBarberia.detectar_intencion_respuesta texto = none →
        g texto = .error () →
        IntentDetector.detectar_intencion_unificada kwLayer g texto = none) := by
  intro kwLayer g g' texto
  refine ⟨?_, ?_, ?_, ?_, ?_⟩
  · intro h
    simp [IntentDetector.detectar_intencion_unificada, h]
  · intro i hne hkw
    simp [IntentDetector.detectar_intencion_unificada, hne, hkw]
  · intro i clave hne hkw hresp
    simp [IntentDetector.detectar_intencion_unificada, hne, hkw, hresp]
  · intro h
    by_cases he : texto = ""
    · simp [IntentDetector.detectar_intencion_unificada, he]
    · cases hkw : kwLayer texto with
      | some i => simp [IntentDetector.detectar_intencion_unificada, he, hkw]
      | none =>
        cases hresp : RespuestasBarberia.detectar_intencion_respuesta texto with
        | some p =>
          obtain ⟨i, clave⟩ := p
          simp [IntentDetector.detectar_intencion_unificada, he, hkw, hresp]
        | none =>
          have hlen : ¬ (pyStrip texto).length > 10 := by
            rcases h with h | h | h
            · exact absurd hkw h
            · exact absurd hresp h
            · exact h
          simp [IntentDetector.detectar_intencion_unificada, he, hkw, hresp, hlen]
  · intro hne hkw hresp hg
    simp [IntentDetector.detectar_intencion_unificada, hne, hkw, hresp, hg]

/-- Closed witness for C5 at concrete inputs: `"precio"` hits the
predefined-response layer, and a raising Gemini oracle yields `None` on an
otherwise unmatched long text. -/
theorem c5_intent_layers_witness :
    IntentDetector.detectar_intencion_unificada (fun _ => none) (fun _ => .error ()) "precio" =
      some ⟨"precios", "predefinidas", some "cuanto_sale"⟩ ∧
    IntentDetector.detectar_intencion_unificada (fun _ => none) (fun _ => .error ())
      "xyzw qwkj zzzzzzzz" = none :=
  ⟨(c5_intent_layers (fun _ => none) (fun _ => .error ()) (fun _ => .error ()) "precio").2.2.1
      "precios" "cuanto_sale" (by decide) rfl (by decide),
   (c5_intent_layers (fun _ => none) (fun _ => .error ()) (fun _ => .error ())
      "xyzw qwkj zzzzzzzz").2.2.2.2 (by decide) rfl (by decide) rfl⟩

namespace Estado

/-- Modelled from the spec: the per-number context blob of `Util/estado.py`
(file not in the repository snapshot); the fields actually consulted by
`Models/chat.py` are the greeting flag and the flow step. -/
structure ContextData where
  ya_se_saludo : Bool
  flujo_paso : String
  deriving DecidableEq

instance : Inhabited ContextData := ⟨⟨false, ""⟩⟩

/-- Modelled from the spec: one phone number's session state — the
waiting-for flag, the context data, and the stored citas. -/
structure SessionEstado where
  waiting_for : Option String
  context_data : ContextData
  citas : List String
  deriving DecidableEq

instance : Inhabited SessionEstado := ⟨⟨none, default, []⟩⟩

/-- The per-number in-memory session store. -/
abbrev Store := String → SessionEstado

def setEstado (store : Store) (numero : String) (v : SessionEstado) : Store :=
  fun n => if n = numero then v else store n

/-- Modelled from the spec: `reset_estado` clears the number's waiting-for
flag and context data (session state cleared on command), keeping citas. -/
def reset_estado (store : Store) (numero : String) : Store :=
  setEstado store numero ⟨none, default, (store numero).citas⟩

/-- Modelled from the spec: `clear_waiting_for` clears only the waiting-for
flag of the number. -/
def clear_waiting_for (store : Store) (numero : String) : Store :=
  setEstado store numero ⟨none, (store numero).context_data, (store numero).citas⟩

/-- Modelled from the spec: `clear_citas` drops the stored citas of the
number. -/
def clear_citas (store : Store) (numero : String) : Store :=
  setEstado store numero ⟨(store numero).waiting_for, (store numero).context_data, []⟩

/-- From `Models/chat.py`, `Chat.clear_state`: `reset_session` (which calls
the modelled `reset_estado`) followed by `reset_conversation` (which calls
the modelled `clear_waiting_for`; the per-object `conversation_data` dict is
cleared too and carries no per-number state). -/
def chat_clear_state (store : Store) (numero : String) : Store :=
  clear_waiting_for (reset_estado store numero) numero

end Estado

namespace MessageRouter

/-- Python `s.replace(pat, rep)` for a non-empty pattern: replace
non-overlapping occurrences left to right.  Structural recursion on a fuel
bounded by the string length. -/
def pyReplaceAux (pat rep : List Char) : Nat → List Char → List Char
  | _, [] => []
  | 0, s => s
  | Nat.succ fuel, c :: cs =>
      if pat.isPrefixOf (c :: cs) then
        rep ++ pyReplaceAux pat rep fuel ((c :: cs).drop pat.length)
      else c :: pyReplaceAux pat rep fuel cs

/-- Python `s.replace(pat, rep)`. -/
def pyReplace (s pat rep : String) : String :=
  if pat = "" then s
  else String.mk (pyReplaceAux pat.data rep.data s.data.length s.data)

/-- The relevant fields of the `Chat` instance consulted by the router. -/
structure ChatInst where
  id_chat : Option String
  link_reserva : String
  deriving DecidableEq

/-- Python `chat_instance.id_chat.replace("chat_", "") if chat_instance.id_chat else ""`. -/
def numeroDe (id_chat : Option String) : String :=
  if pyStrTruthy id_chat then pyReplace (id_chat.getD "") "chat_" "" else ""

/-- The value returned by a router handler: either a reply string or the raw
WhatsApp-API result dict that `funcion_ayuda` returns. -/
inductive RouteResult where
  | reply (s : String)
  | raw (r : ErrorFlow.SendResult)
  deriving DecidableEq

/-- Python truthiness of a handler result: a string is truthy iff non-empty;
the API result dict always has keys and is always truthy. -/
def routeTruthy : RouteResult → Bool
  | .reply s => s ≠ ""
  | .raw _ => true

def RouteResult.esReply : RouteResult → Bool
  | .reply _ => true
  | .raw _ => false

/-- From `Util/message_router.py`, `handle_commands`: the cancel commands
clear the number's session state and citas and return the fixed reply; the
registered command `"ayuda"` runs `funcion_ayuda`, which sends the help text
and returns the raw API result (`ayudaRes` is that send's oracle). -/
def handle_commands (texto_lower : String) (chat : ChatInst) (store : Estado.Store)
    (ayudaRes : ErrorFlow.SendResult) : Option RouteResult × Estado.Store :=
  if texto_lower = "cancelar" ∨ texto_lower = "salir" ∨ texto_lower = "cancel" then
    let numero := numeroDe chat.id_chat
    let store1 := Estado.chat_clear_state store numero
    let store2 := Estado.clear_citas store1 numero
    (some (.reply "❌ Operación cancelada."), store2)
  else if texto_lower = "ayuda" then
    (some (.raw ayudaRes), store)
  else (none, store)

/-- The priority chain of `route_message` after the command handler: first
truthy handler response wins. -/
def primeraRespuesta : List (Option String) → Option String
  | [] => none
  | o :: rest => if pyStrTruthy o then o else primeraRespuesta rest

def mensaje_fallback_contexto : String :=
  "Escribime lo que necesites o escribí *ayuda* para ver las opciones."

def mensaje_fallback_nuevo : String :=
  "¡Bro! ¿Todo bien?\n\nEscribime lo que necesites o escribí *ayuda* para ver las opciones."

/-- Python `chat_instance.id_chat.replace("chat_", "") if chat_instance.id_chat
else numero`: the number used to read the greeting flag in the fallback. -/
def numeroFallback (numero : String) (chat : ChatInst) : String :=
  if pyStrTruthy chat.id_chat then pyReplace (chat.id_chat.getD "") "chat_" ""
  else numero

/-- Priorities 1-4 and the fallback of `route_message`.  The four handlers
(sequential flow, critical rules, predefined responses, Gemini generation)
are I/O-dependent and enter as `Option String` outcome oracles. -/
def route_rest (numero : String) (chat : ChatInst) (store : Estado.Store)
    (seqFlow critRules predef gemini : Option String) : RouteResult × Estado.Store :=
  match primeraRespuesta [seqFlow, critRules, predef, gemini] with
  | some s => (.reply s, store)
  | none =>
      if (store (numeroFallback numero chat)).context_data.ya_se_saludo then
        (.reply mensaje_fallback_contexto, store)
      else
        (.reply mensaje_fallback_nuevo, store)

/-- From `Util/message_router.py`, `route_message`: priority 0 commands, then
the handler chain, then the fixed fallback chosen by the greeting flag. -/
def route_message (numero texto : String) (chat : ChatInst) (store : Estado.Store)
    (ayudaRes : ErrorFlow.SendResult)
    (seqFlow critRules predef gemini : Option String) : RouteResult × Estado.Store :=
  let texto_lower := RespuestasBarberia.pyLower (pyStrip texto)
  let c := handle_commands texto_lower chat store ayudaRes
  match c.1 with
  | some r => if routeTruthy r then (r, c.2) else route_rest numero chat c.2 seqFlow critRules predef gemini
  | none => route_rest numero chat c.2 seqFlow critRules predef gemini

end MessageRouter

namespace WebhookServer

/-- Outcome environment of one `POST /webhook` request: the results of every
effectful step of `webhook_server.receive`.  `parse` is the outcome of
`procesar_mensaje_recibido` (`None`, or numero/mensaje/tipo/message-id/
replied-message-id); a `jsonOk = false` or `processingRaises = true` models
an exception in the corresponding step, reaching the handler's global
`except` branch (whose own sends are modelled as non-raising). -/
structure WebhookEnv where
  jsonOk : Bool
  parse : Option (String × String × String × String × Option String)
  esResponsable : Bool
  replyHandled : Bool
  ultimoCliente : Option String
  processingRaises : Bool

/-- Python `mensaje.strip().startswith("#Responder")`. -/
def esResponder (mensaje : String) : Bool :=
  "#Responder".data.isPrefixOf (pyStrip mensaje).data

/-- Python `mensaje.strip()[10:].strip()`. -/
def mensajeAReenviar (mensaje : String) : String :=
  pyStrip (String.mk ((pyStrip mensaje).data.drop 10))

/-- From `webhook_server.py`, `receive`: the HTTP status and body returned
for one request, following the handler's branch structure. -/
def receive (env : WebhookEnv) : Nat × String :=
  if env.jsonOk = false then
    (200, "EVENT_RECEIVED")
  else
    match env.parse with
    | none => (200, "EVENT_RECEIVED")
    | some (_numero, mensaje, tipo, _mid, _rmid) =>
        if env.esResponsable && env.replyHandled then
          (200, "EVENT_RECEIVED")
        else if env.esResponsable && (tipo == "text" || tipo == "interactive") &&
            esResponder mensaje && (mensajeAReenviar mensaje != "") &&
            env.ultimoCliente.isSome then
          (200, "EVENT_RECEIVED")
        else if env.processingRaises then
          (200, "EVENT_RECEIVED")
        else
          (200, "EVENT_RECEIVED")

end WebhookServer

/-- C2: for every inbound request the `POST /webhook` handler finishes with
HTTP 200 and body `"EVENT_RECEIVED"`: when the payload parses to no message,
when the responsable-reply path consumes it, when normal processing succeeds,
and when any exception is raised during processing (the global except branch
runs the critical-error flow and still acks). -/
theorem c2_webhook_always_200 :
    ∀ env : WebhookServer.WebhookEnv,
      WebhookServer.receive env = (200, "EVENT_RECEIVED") := by
  intro env
  unfold WebhookServer.receive
  split
  · rfl
  · split
    · rfl
    · split
      · rfl
      · split
        · rfl
        · split <;> rfl

/-- C8: the commands `"cancelar"`, `"salir"`, `"cancel"` return the fixed
cancel reply and clear exactly the sender's session state (waiting-for flag,
context data and stored citas), leaving every other phone number's session
state unchanged.  The hypotheses fix the chat id to the `"chat_<numero>"`
shape the webhook builds and state that stripping `"chat_"` recovers the
number. -/
theorem c8_cancel_clears_state :
    ∀ (numero texto_lower : String) (chat : MessageRouter.ChatInst)
      (store : Estado.Store) (res : ErrorFlow.SendResult),
      (texto_lower = "cancelar" ∨ texto_lower = "salir" ∨ texto_lower = "cancel") →
      chat.id_chat = some ("chat_" ++ numero) →
      MessageRouter.pyReplace ("chat_" ++ numero) "chat_" "" = numero →
      (MessageRouter.handle_commands texto_lower chat store res).1 =
        some (.reply "❌ Operación cancelada.") ∧
      ((MessageRouter.handle_commands texto_lower chat store res).2 numero) =
        ⟨none, default, []⟩ ∧
      (∀ n, n ≠ numero →
        (MessageRouter.handle_commands texto_lower chat store res).2 n = store n) := by
  intro numero texto_lower chat store res hcmd hid hrep
  have hne : ("chat_" ++ numero) ≠ "" := by
    intro h
    have hd : "chat_".data ++ numero.data = ([] : List Char) := congrArg String.data h
    exact absurd (List.append_eq_nil.mp hd).1 (by decide)
  have hnum : MessageRouter.numeroDe chat.id_chat = numero := by
    rw [hid]
    unfold MessageRouter.numeroDe
    rw [if_pos (by simp [pyStrTruthy, hne])]
    simpa using hrep
  have hsame : ∀ (st : Estado.Store) (v : Estado.SessionEstado),
      Estado.setEstado st numero v numero = v := by
    intro st v
    unfold Estado.setEstado
    rw [if_pos rfl]
  unfold MessageRouter.handle_commands
  rw [if_pos hcmd, hnum]
  refine ⟨rfl, ?_, ?_⟩
  · show (Estado.clear_citas (Estado.chat_clear_state store numero) numero) numero = _
    unfold Estado.clear_citas Estado.chat_clear_state Estado.clear_waiting_for Estado.reset_estado
    rw [hsame, hsame, hsame]
  · intro n hn
    have hother : ∀ (st : Estado.Store) (v : Estado.SessionEstado),
        Estado.setEstado st numero v n = st n := by
      intro st v
      unfold Estado.setEstado
      rw [if_neg hn]
    show (Estado.clear_citas (Estado.chat_clear_state store numero) numero) n = store n
    unfold Estado.clear_citas Estado.chat_clear_state Estado.clear_waiting_for Estado.reset_estado
    rw [hother, hother, hother]

/-- A concrete populated session store used by the closed witnesses. -/
def storeEjemplo : Estado.Store :=
  fun _ => ⟨some "flujo_dia_hora", ⟨true, "saludo_inicial"⟩, ["cita1"]⟩

/-- Closed witness for C8 at concrete inputs. -/
theorem c8_cancel_clears_state_witness :
    ((MessageRouter.handle_commands "salir" ⟨some "chat_59812345", ""⟩ storeEjemplo
        ⟨true, none, []⟩).2 "59812345") = ⟨none, default, []⟩ ∧
    ((MessageRouter.handle_commands "salir" ⟨some "chat_59812345", ""⟩ storeEjemplo
        ⟨true, none, []⟩).2 "59899999") = storeEjemplo "59899999" :=
  ⟨(c8_cancel_clears_state "59812345" "salir" ⟨some "chat_59812345", ""⟩ storeEjemplo
      ⟨true, none, []⟩ (Or.inr (Or.inl rfl)) rfl (by decide)).2.1,
   (c8_cancel_clears_state "59812345" "salir" ⟨some "chat_59812345", ""⟩ storeEjemplo
      ⟨true, none, []⟩ (Or.inr (Or.inl rfl)) rfl (by decide)).2.2 "59899999" (by decide)⟩

theorem primeraRespuesta_truthy (l : List (Option String)) (s : String)
    (h : MessageRouter.primeraRespuesta l = some s) : s ≠ "" := by
  induction l with
  | nil => simp [MessageRouter.primeraRespuesta] at h
  | cons o rest ih =>
    unfold MessageRouter.primeraRespuesta at h
    by_cases ho : pyStrTruthy o = true
    · rw [if_pos ho] at h
      cases o with
      | none => simp [pyStrTruthy] at ho
      | some t =>
        simp only [Option.some.injEq] at h
        subst h
        simpa [pyStrTruthy] using ho
    · rw [if_neg ho] at h
      exact ih h

/-- C9 counterexample: on the registered command `"ayuda"` the router returns
the raw WhatsApp-API result dict of `funcion_ayuda`, not a reply string —
refuting "for every input text it returns a non-None, non-empty reply
string". -/
theorem c9_route_counterexample :
    MessageRouter.RouteResult.esReply
      (MessageRouter.route_message "59" "ayuda" ⟨some "chat_59", ""⟩
        (fun _ => default) ⟨true, none, []⟩ none none none none).1 = false := by
  decide

/-- C9 (amended): `route_message` always returns a truthy value; on every
text whose stripped-lowered form is not the registered command `"ayuda"` it
returns a non-empty reply string; and when the command handler produces no
response (the text is none of the four commands) and the sequential flow,
critical rules, predefined responses and Gemini generation all produce no
truthy response, it returns one of the two fixed fallback messages, chosen
by the recorded-greeting flag of the number. -/
theorem c9_route_total :
    ∀ (numero texto : String) (chat : MessageRouter.ChatInst) (store : Estado.Store)
      (ayudaRes : ErrorFlow.SendResult) (seqFlow critRules predef gemini : Option String),
      (MessageRouter.routeTruthy
        (MessageRouter.route_message numero texto chat store ayudaRes
          seqFlow critRules predef gemini).1 = true) ∧
      (RespuestasBarberia.pyLower (pyStrip texto) ≠ "ayuda" →
        ∃ s, (MessageRouter.route_message numero texto chat store ayudaRes
          seqFlow critRules predef gemini).1 = .reply s ∧ s ≠ "") ∧
      (RespuestasBarberia.pyLower (pyStrip texto) ≠ "cancelar" →
        RespuestasBarberia.pyLower (pyStrip texto) ≠ "salir" →
        RespuestasBarberia.pyLower (pyStrip texto) ≠ "cancel" →
        RespuestasBarberia.pyLower (pyStrip texto) ≠ "ayuda" →
        pyStrTruthy seqFlow = false → pyStrTruthy critRules = false →
        pyStrTruthy predef = false → pyStrTruthy gemini = false →
        (MessageRouter.route_message numero texto chat store ayudaRes
          seqFlow critRules predef gemini).1 =
          .reply (if (store (MessageRouter.numeroFallback numero chat)).context_data.ya_se_saludo
            then MessageRouter.mensaje_fallback_contexto
            else MessageRouter.mensaje_fallback_nuevo)) := by
  intro numero texto chat store ayudaRes seqFlow critRules predef gemini
  have hrestReply : ∀ st : Estado.Store, ∃ s,
      (MessageRouter.route_rest numero chat st seqFlow critRules predef gemini).1 =
        .reply s ∧ s ≠ "" := by
    intro st
    cases hp : MessageRouter.primeraRespuesta [seqFlow, critRules, predef, gemini] with
    | some s =>
      refine ⟨s, ?_, primeraRespuesta_truthy _ s hp⟩
      simp only [MessageRouter.route_rest, hp]
    | none =>
      simp only [MessageRouter.route_rest, hp]
      split
      · exact ⟨MessageRouter.mensaje_fallback_contexto, rfl, by decide⟩
      · exact ⟨MessageRouter.mensaje_fallback_nuevo, rfl, by decide⟩
  have hrestTruthy : ∀ st : Estado.Store,
      MessageRouter.routeTruthy
        (MessageRouter.route_rest numero chat st seqFlow critRules predef gemini).1 = true := by
    intro st
    obtain ⟨s, hs, hne⟩ := hrestReply st
    rw [hs]
    simpa [MessageRouter.routeTruthy] using hne
  simp only [MessageRouter.route_message, MessageRouter.handle_commands]
  by_cases hcan : RespuestasBarberia.pyLower (pyStrip texto) = "cancelar" ∨
      RespuestasBarberia.pyLower (pyStrip texto) = "salir" ∨
      RespuestasBarberia.pyLower (pyStrip texto) = "cancel"
  · rw [if_pos hcan]
    refine ⟨rfl, ?_, ?_⟩
    · intro _
      exact ⟨"❌ Operación cancelada.", rfl, by decide⟩
    · intro h1 h2 h3 _
      rcases hcan with h | h | h
      · exact absurd h h1
      · exact absurd h h2
      · exact absurd h h3
  · by_cases hay : RespuestasBarberia.pyLower (pyStrip texto) = "ayuda"
    · rw [if_neg hcan, if_pos hay]
      refine ⟨rfl, ?_, ?_⟩
      · intro h
        exact absurd hay h
      · intro _ _ _ h
        exact absurd hay h
    · rw [if_neg hcan, if_neg hay]
      refine ⟨hrestTruthy store, fun _ => hrestReply store, ?_⟩
      intro _ _ _ _ hs hc hp hg
      have hnone : MessageRouter.primeraRespuesta [seqFlow, critRules, predef, gemini] = none := by
        simp [MessageRouter.primeraRespuesta, hs, hc, hp, hg]
      show (MessageRouter.route_rest numero chat store seqFlow critRules predef gemini).1 = _
      simp only [MessageRouter.route_rest, hnone]
      split
      · rfl
      · rfl

/-- Closed witness for C9 at concrete inputs. -/
theorem c9_route_total_witness :
    (MessageRouter.route_message "59812345" "qué onda bro" ⟨some "chat_59812345", ""⟩
        storeEjemplo ⟨true, none, []⟩ none none none none).1 =
      .reply (if (storeEjemplo
          (MessageRouter.numeroFallback "59812345" ⟨some "chat_59812345", ""⟩)).context_data.ya_se_saludo
        then MessageRouter.mensaje_fallback_contexto
        else MessageRouter.mensaje_fallback_nuevo) :=
  (c9_route_total "59812345" "qué onda bro" ⟨some "chat_59812345", ""⟩ storeEjemplo
      ⟨true, none, []⟩ none none none none).2.2
    (by decide) (by decide) (by decide) (by decide) rfl rfl rfl rfl

end BotBarberia
